import Mathlib

/-!
Shallow embedding of the emq_exporter collector (collector.go, types.go,
main.go) and verification of the frozen claims about its collection cycle.

Numeric modelling conventions:
  * Go `int` fields are modelled as `Int`, lengths as `Nat`.
  * Go `float64` metric values are modelled exactly as `ℚ`; all inputs the
    claims exercise are exactly representable in binary floating point, so
    the rational model agrees with float64 on them.
  * Go runtime panics (index out of range) are modelled as `Option.none`.
-/

namespace EmqExporter

/-! ## Response schema (types.go) -/

/-- Embedding of `nodesResponseResult`: the per-node status payload. -/
structure NodesResponseResult where
  nodeName : String
  release : String
  status : String
  memoryTotal : String
  memoryUsed : String
  processesAvailable : Int
  processesUsed : Int
  maxFds : Int
  clients : Int
  load1 : String
  load5 : String
  load15 : String
deriving DecidableEq

/-- Embedding of `nodesResponse`: `{result, code}` wrapper. -/
structure NodesResponse where
  result : NodesResponseResult
  code : Int
deriving DecidableEq

/-- Embedding of `metricsResponseResult`: the protocol counters payload. -/
structure MetricsResponseResult where
  messagesDropped : Int
  packetsReceived : Int
  packetsPubcompReceived : Int
  packetsUnsuback : Int
  packetsPingresp : Int
  packetsPingreq : Int
  messagesQos0Sent : Int
  messagesQos2Received : Int
  packetsPubcompMissed : Int
  messagesRetained : Int
  packetsSuback : Int
  bytesSent : Int
  packetsPubackReceived : Int
  packetsPubrecReceived : Int
  messagesQos2Sent : Int
  packetsPubrecSent : Int
  packetsPubackSent : Int
  packetsPubrelMissed : Int
  packetsConnect : Int
  messagesQos1Sent : Int
  packetsConnack : Int
  packetsPubrelReceived : Int
  packetsPublishReceived : Int
  bytesReceived : Int
  packetsPubrelSent : Int
  packetsPubrecMissed : Int
  packetsSent : Int
  messagesQos0Received : Int
  packetsPubcompSent : Int
  messagesReceived : Int
  messagesSent : Int
  packetsSubscribe : Int
  messagesQos2Dropped : Int
  packetsUnsubscribe : Int
  messagesQos1Received : Int
  packetsDisconnect : Int
  packetsPublishSent : Int
  packetsPubackMissed : Int
deriving DecidableEq

/-- Embedding of `metricsResponse`: `{result, code}` wrapper. -/
structure MetricsResponse where
  result : MetricsResponseResult
  code : Int
deriving DecidableEq

/-- Embedding of `statsResponseResult`: the broker stats payload. -/
structure StatsResponseResult where
  clientsCount : Int
  clientsMax : Int
  retainedCount : Int
  retainedMax : Int
  routesCount : Int
  routesMax : Int
  sessionsCount : Int
  sessionsMax : Int
  subscribersCount : Int
  subscribersMax : Int
  subscriptionsCount : Int
  subscriptionsMax : Int
  topicsCount : Int
  topicsMax : Int
deriving DecidableEq

/-- Embedding of `statsResponse`: `{result, code}` wrapper. -/
structure StatsResponse where
  result : StatsResponseResult
  code : Int
deriving DecidableEq

/-- Embedding of `ManagementResponseResult`: one cluster membership record. -/
structure ManagementResponseResult where
  name : String
  version : String
  sysdescr : String
  uptime : String
  datetime : String
  otpRelease : String
  nodeStatus : String
deriving DecidableEq

/-- Embedding of `managementResponse`: `{result: [...], code}` wrapper. -/
structure ManagementResponse where
  result : List ManagementResponseResult
  code : Int
deriving DecidableEq

/-- Go zero value of `ManagementResponseResult`, the value `managementData`
keeps in `Collect` when no membership record matches the node name. -/
def emptyManagementResult : ManagementResponseResult :=
  { name := "", version := "", sysdescr := "", uptime := "", datetime := "",
    otpRelease := "", nodeStatus := "" }

/-- Embedding of `combinedResponse`: the snapshot one collection cycle
evaluates every metric against. -/
structure CombinedResponse where
  nodes : NodesResponse
  metrics : MetricsResponse
  stats : StatsResponse
  clusterSize : Nat
deriving DecidableEq

/-! ## The number regex (collector.go line 18)

`validID = regexp.MustCompile` of the pattern: one or more digits, a literal
dot, one or more digits; or else one or more digits. Go regexp matching is
leftmost-first, so the first match of `FindAllString` starts at the first
digit of the subject; the greedy first alternative takes the maximal digit
run there, then a dot and the maximal digit run after it when present,
otherwise the second alternative takes the maximal digit run alone.
`findFirstNumber` computes that first match (`none` when there is no match,
which is exactly when the subject has no digit). -/

def findFirstNumber : List Char → Option (List Char)
  | [] => none
  | c :: cs =>
    if c.isDigit then
      let run1 := (c :: cs).takeWhile Char.isDigit
      let rest1 := (c :: cs).dropWhile Char.isDigit
      some (match rest1 with
        | '.' :: d :: _ =>
          if d.isDigit then run1 ++ '.' :: (rest1.tail.takeWhile Char.isDigit)
          else run1
        | _ => run1)
    else findFirstNumber cs

/-- Numeric value of a digit run, as `strconv.ParseFloat` reads the integer
or fractional part. -/
def digitsVal (l : List Char) : Nat :=
  l.foldl (fun n c => 10 * n + (c.toNat - 48)) 0

/-- Exact-rational model of `strconv.ParseFloat` on strings matched by the
number regex: integer part, and a fractional part when a dot is present. -/
def parseFloatQ (m : List Char) : ℚ :=
  let ip := m.takeWhile (fun c => c != '.')
  match m.dropWhile (fun c => c != '.') with
  | '.' :: fp => (digitsVal ip : ℚ) + (digitsVal fp : ℚ) / ((10 : ℚ) ^ fp.length)
  | _ => (digitsVal ip : ℚ)

/-- Embedding of the `Value` closures of the `memory_total` and `memory_used`
metrics (collector.go lines 113-119 and 129-135): run the regex over the
string, index the match list at 0, parse and scale by one million. When the
match list is empty the Go code evaluates `str[0]` on an empty slice and
panics with index out of range; that panic is modelled as `none`. The
`ParseFloat` error branch (log and keep the zero value) is unreachable for
regex matches of this pattern, since every match is a syntactically valid
number. -/
def memValue (s : String) : Option ℚ :=
  match findFirstNumber s.data with
  | none => none
  | some m => some (parseFloatQ m * 1000000)

/-! ## Metric registry (collector.go lines 15-17, 21-25, 61-612) -/

/-- Embedding of `prometheus.ValueType` restricted to the kinds this program
uses in descriptors. -/
inductive ValueType where
  | gaugeValue
  | counterValue
deriving DecidableEq, BEq

/-- Embedding of the package-level variable `namespace = "emq"`. -/
def emqNamespace : String := "emq"

/-- Embedding of `defaultLabels = []string\x7b"node", "otp_release", "version"\x7d`. -/
def defaultLabels : List String := ["node", "otp_release", "version"]

/-- Embedding of `prometheus.BuildFQName` for nonempty parts: joins the
pieces with underscores. -/
def buildFQName (ns sub name : String) : String := ns ++ "_" ++ sub ++ "_" ++ name

/-- Embedding of the `metric` struct: value kind, descriptor data (name, help,
label names), and the `Value` closure. The closure returns `none` when the Go
closure panics (see `memValue`), otherwise `some` of the float64 it returns. -/
structure Metric where
  type : ValueType
  name : String
  help : String
  labelNames : List String
  value : CombinedResponse → Option ℚ

/-- Embedding of the `metrics` slice literal built by `NewEMQCollector`
(collector.go lines 61-612), in source order. Every entry is a gauge over
`defaultLabels`; each `value` is the corresponding `Value` closure. -/
def emqMetrics : List Metric := [
  { type := .gaugeValue, name := buildFQName emqNamespace "cluster" "size",
    help := "The total number of EMQ nodes in your cluster.",
    labelNames := defaultLabels,
    value := fun v => some ((v.clusterSize : ℚ)) },
  { type := .gaugeValue, name := buildFQName emqNamespace "node" "process_used",
    help := "The amount of processes used by the EMQ node.",
    labelNames := defaultLabels,
    value := fun v => some ((v.nodes.result.processesUsed : ℚ)) },
  { type := .gaugeValue, name := buildFQName emqNamespace "node" "process_available",
    help := "The amount of processes available to the EMQ node.",
    labelNames := defaultLabels,
    value := fun v => some ((v.nodes.result.processesAvailable : ℚ)) },
  { type := .gaugeValue, name := buildFQName emqNamespace "node" "max_fds",
    help := "The amount of file descriptors available to the EMQ node.",
    labelNames := defaultLabels,
    value := fun v => some ((v.nodes.result.maxFds : ℚ)) },
  { type := .gaugeValue, name := buildFQName emqNamespace "node" "memory_total",
    help := "The max amount of memory used to the EMQ node.",
    labelNames := defaultLabels,
    value := fun v => memValue v.nodes.result.memoryTotal },
  { type := .gaugeValue, name := buildFQName emqNamespace "node" "memory_used",
    help := "The amount of memory being used to the EMQ node.",
    labelNames := defaultLabels,
    value := fun v => memValue v.nodes.result.memoryUsed },
  { type := .gaugeValue, name := buildFQName emqNamespace "metric" "packets_disconnected",
    help := "The amount of packets disconnected",
    labelNames := defaultLabels,
    value := fun v => some ((v.metrics.result.packetsDisconnect : ℚ)) },
  { type := .gaugeValue, name := buildFQName emqNamespace "metric" "messages_qos2_received",
    help := "The amount of packets QOS2 messages received",
    labelNames := defaultLabels,
    value := fun v => some ((v.metrics.result.messagesQos2Received : ℚ)) },
  { type := .gaugeValue, name := buildFQName emqNamespace "metric" "packets_suback",
    help := "The amount of packets suback",
    labelNames := defaultLabels,
    value := fun v => some ((v.metrics.result.packetsSuback : ℚ)) },
  { type := .gaugeValue, name := buildFQName emqNamespace "metric" "packets_pubcomp_received",
    help := "The amount of packets pubcomp received",
    labelNames := defaultLabels,
    value := fun v => some ((v.metrics.result.packetsPubcompReceived : ℚ)) },
  { type := .gaugeValue, name := buildFQName emqNamespace "metric" "packets_unsuback",
    help := "The amount of packets unsuback",
    labelNames := defaultLabels,
    value := fun v => some ((v.metrics.result.packetsUnsuback : ℚ)) },
  { type := .gaugeValue, name := buildFQName emqNamespace "metric" "packets_pingresp",
    help := "The amount of packets pingresp",
    labelNames := defaultLabels,
    value := fun v => some ((v.metrics.result.packetsPingresp : ℚ)) },
  { type := .gaugeValue, name := buildFQName emqNamespace "metric" "packets_pingreq",
    help := "The amount of packets pingreq",
    labelNames := defaultLabels,
    value := fun v => some ((v.metrics.result.packetsPingreq : ℚ)) },
  { type := .gaugeValue, name := buildFQName emqNamespace "metric" "packets_pubrel_missed",
    help := "The amount of packets pubrel missed",
    labelNames := defaultLabels,
    value := fun v => some ((v.metrics.result.packetsPubrelMissed : ℚ)) },
  { type := .gaugeValue, name := buildFQName emqNamespace "metric" "packets_sent",
    help := "The amount of packets sent",
    labelNames := defaultLabels,
    value := fun v => some ((v.metrics.result.packetsSent : ℚ)) },
  { type := .gaugeValue, name := buildFQName emqNamespace "metric" "messages_qos2_sent",
    help := "The amount of QOS2 messages sent",
    labelNames := defaultLabels,
    value := fun v => some ((v.metrics.result.messagesQos2Sent : ℚ)) },
  { type := .gaugeValue, name := buildFQName emqNamespace "metric" "packets_pubrec_missed",
    help := "The amount of packets pubrec missed",
    labelNames := defaultLabels,
    value := fun v => some ((v.metrics.result.packetsPubrecMissed : ℚ)) },
  { type := .gaugeValue, name := buildFQName emqNamespace "metric" "packets_unsubscribe",
    help := "The amount of packets disconnected",
    labelNames := defaultLabels,
    value := fun v => some ((v.metrics.result.packetsUnsubscribe : ℚ)) },
  { type := .gaugeValue, name := buildFQName emqNamespace "metric" "bytes_received",
    help := "The amount of bytes received",
    labelNames := defaultLabels,
    value := fun v => some ((v.metrics.result.bytesReceived : ℚ)) },
  { type := .gaugeValue, name := buildFQName emqNamespace "metric" "packets_connack",
    help := "The amount of packets connack",
    labelNames := defaultLabels,
    value := fun v => some ((v.metrics.result.packetsConnack : ℚ)) },
  { type := .gaugeValue, name := buildFQName emqNamespace "metric" "messages_received",
    help := "The amount of messages received",
    labelNames := defaultLabels,
    value := fun v => some ((v.metrics.result.messagesReceived : ℚ)) },
  { type := .gaugeValue, name := buildFQName emqNamespace "metric" "messages_dropped",
    help := "The amount of messages dropped",
    labelNames := defaultLabels,
    value := fun v => some ((v.metrics.result.messagesDropped : ℚ)) },
  { type := .gaugeValue, name := buildFQName emqNamespace "metric" "packets_pubrec_sent",
    help := "The amount of packets pubrec sent",
    labelNames := defaultLabels,
    value := fun v => some ((v.metrics.result.packetsPubrecSent : ℚ)) },
  { type := .gaugeValue, name := buildFQName emqNamespace "metric" "messages_retained",
    help := "The amount of messages retained",
    labelNames := defaultLabels,
    value := fun v => some ((v.metrics.result.messagesRetained : ℚ)) },
  { type := .gaugeValue, name := buildFQName emqNamespace "metric" "packets_publish_received",
    help := "The amount of packets publish received",
    labelNames := defaultLabels,
    value := fun v => some ((v.metrics.result.packetsPublishReceived : ℚ)) },
  { type := .gaugeValue, name := buildFQName emqNamespace "metric" "packets_pubcomp_sent",
    help := "The amount of packets pubcomp sent",
    labelNames := defaultLabels,
    value := fun v => some ((v.metrics.result.packetsPubcompSent : ℚ)) },
  { type := .gaugeValue, name := buildFQName emqNamespace "metric" "packets_connect",
    help := "The amount of packets connect",
    labelNames := defaultLabels,
    value := fun v => some ((v.metrics.result.packetsConnect : ℚ)) },
  { type := .gaugeValue, name := buildFQName emqNamespace "metric" "packets_puback_received",
    help := "The amount of packets puback received",
    labelNames := defaultLabels,
    value := fun v => some ((v.metrics.result.packetsPubackReceived : ℚ)) },
  { type := .gaugeValue, name := buildFQName emqNamespace "metric" "messages_sent",
    help := "The amount of messages sent",
    labelNames := defaultLabels,
    value := fun v => some ((v.metrics.result.messagesSent : ℚ)) },
  { type := .gaugeValue, name := buildFQName emqNamespace "metric" "packets_publish_sent",
    help := "The amount of packets publish sent",
    labelNames := defaultLabels,
    value := fun v => some ((v.metrics.result.packetsPublishSent : ℚ)) },
  { type := .gaugeValue, name := buildFQName emqNamespace "metric" "bytes_sent",
    help := "The amount of bytes sent",
    labelNames := defaultLabels,
    value := fun v => some ((v.metrics.result.bytesSent : ℚ)) },
  { type := .gaugeValue, name := buildFQName emqNamespace "metric" "packets_puback_sent",
    help := "The amount of packets puback sent",
    labelNames := defaultLabels,
    value := fun v => some ((v.metrics.result.packetsPubackSent : ℚ)) },
  { type := .gaugeValue, name := buildFQName emqNamespace "metric" "messages_qos2_dropped",
    help := "The amount of QOS2 messages dropped",
    labelNames := defaultLabels,
    value := fun v => some ((v.metrics.result.messagesQos2Dropped : ℚ)) },
  { type := .gaugeValue, name := buildFQName emqNamespace "metric" "packets_pubrel_sent",
    help := "The amount of packets pubrel sent",
    labelNames := defaultLabels,
    value := fun v => some ((v.metrics.result.packetsPubrelSent : ℚ)) },
  { type := .gaugeValue, name := buildFQName emqNamespace "metric" "messages_qos1_sent",
    help := "The amount of QOS1 messages sent",
    labelNames := defaultLabels,
    value := fun v => some ((v.metrics.result.messagesQos1Sent : ℚ)) },
  { type := .gaugeValue, name := buildFQName emqNamespace "metric" "packets_pubrel_received",
    help := "The amount of packets pubrel received",
    labelNames := defaultLabels,
    value := fun v => some ((v.metrics.result.packetsPubrelReceived : ℚ)) },
  { type := .gaugeValue, name := buildFQName emqNamespace "metric" "messages_qos1_received",
    help := "The amount of QOS1 messages received",
    labelNames := defaultLabels,
    value := fun v => some ((v.metrics.result.messagesQos1Received : ℚ)) },
  { type := .gaugeValue, name := buildFQName emqNamespace "metric" "messages_qos0_sent",
    help := "The amount of QOS0 messages sent",
    labelNames := defaultLabels,
    value := fun v => some ((v.metrics.result.messagesQos0Sent : ℚ)) },
  { type := .gaugeValue, name := buildFQName emqNamespace "metric" "packets_received",
    help := "The amount of packets received",
    labelNames := defaultLabels,
    value := fun v => some ((v.metrics.result.packetsReceived : ℚ)) },
  { type := .gaugeValue, name := buildFQName emqNamespace "metric" "packets_pubrec_received",
    help := "The amount of packets pubrec received",
    labelNames := defaultLabels,
    value := fun v => some ((v.metrics.result.packetsPubrecReceived : ℚ)) },
  { type := .gaugeValue, name := buildFQName emqNamespace "metric" "packets_pubcomp_missed",
    help := "The amount of packets pubcomp missed",
    labelNames := defaultLabels,
    value := fun v => some ((v.metrics.result.packetsPubcompMissed : ℚ)) },
  { type := .gaugeValue, name := buildFQName emqNamespace "metric" "packets_puback_missed",
    help := "The amount of packets puback missed",
    labelNames := defaultLabels,
    value := fun v => some ((v.metrics.result.packetsPubackMissed : ℚ)) },
  { type := .gaugeValue, name := buildFQName emqNamespace "stats" "clients",
    help := "The amount of clients using in the EMQ node.",
    labelNames := defaultLabels,
    value := fun v => some ((v.stats.result.clientsCount : ℚ)) },
  { type := .gaugeValue, name := buildFQName emqNamespace "stats" "retained",
    help := "The amount of retained messages in the EMQ node.",
    labelNames := defaultLabels,
    value := fun v => some ((v.stats.result.retainedCount : ℚ)) },
  { type := .gaugeValue, name := buildFQName emqNamespace "stats" "routes",
    help := "The amount of routes in use by the EMQ node.",
    labelNames := defaultLabels,
    value := fun v => some ((v.stats.result.routesCount : ℚ)) },
  { type := .gaugeValue, name := buildFQName emqNamespace "stats" "sessions",
    help := "The amount of sessions in use by the EMQ node.",
    labelNames := defaultLabels,
    value := fun v => some ((v.stats.result.sessionsCount : ℚ)) },
  { type := .gaugeValue, name := buildFQName emqNamespace "stats" "subscribers",
    help := "The amount of subscribers using the EMQ node.",
    labelNames := defaultLabels,
    value := fun v => some ((v.stats.result.subscribersCount : ℚ)) },
  { type := .gaugeValue, name := buildFQName emqNamespace "stats" "subscriptions",
    help := "The amount of subscriptions in use by the EMQ node.",
    labelNames := defaultLabels,
    value := fun v => some ((v.stats.result.subscribersCount : ℚ)) },
  { type := .gaugeValue, name := buildFQName emqNamespace "stats" "topics",
    help := "The amount of topics being used in the EMQ node.",
    labelNames := defaultLabels,
    value := fun v => some ((v.stats.result.topicsCount : ℚ)) }
]

/-! ## Broker client and collection cycle (collector.go lines 27-39, 616-815)

The `Collector` struct holds `url **url.URL`: a pointer to the pointer the
flag package owns. Every fetch executes `u := *c.url` (copying the inner
POINTER, not the URL value) and then `u.Path = ...`, which writes the `Path`
field of the one process-wide `url.URL` value all fetches share. The mutable
process-wide state is therefore modelled as `ProcState`: the shared URL
value, the `up` gauge, and the two counters. Configuration values that are
never written (node, username, password) live in `Config`. Network behaviour
is an input: a `FetchOutcome` per endpoint describes what the transport and
the JSON decoder would do for that request. -/

/-- Embedding of the fields of Go `url.URL` that this program touches. -/
structure URL where
  scheme : String
  host : String
  port : String
  path : String
deriving DecidableEq

/-- Process-wide mutable state shared by fetches and collection cycles: the
`url.URL` value reached through the shared double pointer, the `up` gauge,
and the two monotonic counters. -/
structure ProcState where
  url : URL
  up : ℚ
  totalScrapes : Nat
  jsonParseFailures : Nat
deriving DecidableEq

/-- Immutable configuration fields of the `Collector` struct. -/
structure Config where
  node : String
  username : String
  password : String
deriving DecidableEq

/-- What the JSON decoder would produce for one response body. -/
inductive DecodeResult (α : Type) where
  | ok (a : α)
  | malformed
deriving DecidableEq

/-- What the network would do for one request: connection or send failure,
or a response with an HTTP status and a body. -/
inductive FetchOutcome (α : Type) where
  | transportFailure
  | response (status : Nat) (body : DecodeResult α)
deriving DecidableEq

/-- The failure taxonomy of one fetch operation. -/
inductive FetchError where
  | transportError
  | httpStatusError (status : Nat)
  | decodeError
deriving DecidableEq

/-- Embedding of the shared body of the four `fetchAndDecode*` methods:
set the shared URL value to the endpoint path (this write happens before
the request is issued, hence in every outcome), then fail with
`transportError` when the request cannot be built or sent, with
`httpStatusError` when the status is not 200, and with `decodeError` (also
incrementing the parse-failure counter) when the body does not decode;
otherwise return the decoded payload. -/
def fetchAndDecode {α : Type} (path : String) (st : ProcState)
    (out : FetchOutcome α) : ProcState × Except FetchError α :=
  let st1 := { st with url := { st.url with path := path } }
  match out with
  | .transportFailure => (st1, .error .transportError)
  | .response status body =>
    if status = 200 then
      match body with
      | .ok a => (st1, .ok a)
      | .malformed =>
        ({ st1 with jsonParseFailures := st1.jsonParseFailures + 1 },
         .error .decodeError)
    else (st1, .error (.httpStatusError status))

/-- Embedding of `fetchAndDecodeNodes` (collector.go line 616). -/
def fetchAndDecodeNodes (c : Config) (st : ProcState)
    (out : FetchOutcome NodesResponse) : ProcState × Except FetchError NodesResponse :=
  fetchAndDecode ("/api/v2/monitoring/nodes/" ++ c.node) st out

/-- Embedding of `fetchAndDecodeMetrics` (collector.go line 646). -/
def fetchAndDecodeMetrics (c : Config) (st : ProcState)
    (out : FetchOutcome MetricsResponse) : ProcState × Except FetchError MetricsResponse :=
  fetchAndDecode ("/api/v2/monitoring/metrics/" ++ c.node) st out

/-- Embedding of `fetchAndDecodeStats` (collector.go line 676). -/
def fetchAndDecodeStats (c : Config) (st : ProcState)
    (out : FetchOutcome StatsResponse) : ProcState × Except FetchError StatsResponse :=
  fetchAndDecode ("/api/v2/monitoring/stats/" ++ c.node) st out

/-- Embedding of `fetchAndDecodeManagment` (collector.go line 706, source
spelling kept). -/
def fetchAndDecodeManagment (st : ProcState)
    (out : FetchOutcome ManagementResponse) : ProcState × Except FetchError ManagementResponse :=
  fetchAndDecode "/api/v2/management/nodes" st out

/-- The network and decoder behaviour of the four endpoints during one
collection cycle. -/
structure ScrapeOutcomes where
  nodes : FetchOutcome NodesResponse
  metrics : FetchOutcome MetricsResponse
  stats : FetchOutcome StatsResponse
  management : FetchOutcome ManagementResponse

/-- Embedding of the membership-resolution loop in `Collect` (collector.go
lines 786-790): `managementData` starts as the zero value and is overwritten
by every record whose name equals the configured node, so the loop keeps the
LAST exact match. -/
def resolveManagement (node : String) (rs : List ManagementResponseResult) :
    ManagementResponseResult :=
  rs.foldl (fun acc v => if v.name == node then v else acc) emptyManagementResult

/-- One value sent to the exposition channel during `Collect`: either a
per-metric constant sample or one of the three meta series. -/
inductive Emitted where
  | sample (name : String) (vtype : ValueType) (value : ℚ) (labels : List String)
  | upGauge (value : ℚ)
  | scrapeCounter (value : Nat)
  | parseFailureCounter (value : Nat)
deriving DecidableEq

/-- Embedding of the per-metric emission loop (collector.go lines 805-814):
evaluate each `Value` closure in registry order and send one sample. When a
closure panics (`none`, see `memValue`) the loop aborts: no further sample is
sent; the `Bool` records whether a panic happened. -/
def emitSamples (ms : List Metric) (v : CombinedResponse)
    (l1 l2 l3 : String) : List Emitted × Bool :=
  match ms with
  | [] => ([], false)
  | m :: rest =>
    match m.value v with
    | none => ([], true)
    | some x =>
      let r := emitSamples rest v l1 l2 l3
      (.sample m.name m.type x [l1, l2, l3] :: r.1, r.2)

/-- Embedding of the body of `Collect` after the scrape-counter increment:
the four fetches in source order, early return with `up = 0` on the first
failure, then snapshot assembly, health update from the JSON-embedded status
code, and the per-metric emission loop. Returns the state after the body and
the per-metric samples sent (the deferred meta emission is added by
`Collect`). -/
def collectBody (c : Config) (st : ProcState) (o : ScrapeOutcomes) :
    ProcState × List Emitted :=
  let r1 := fetchAndDecodeNodes c st o.nodes
  match r1.2 with
  | .error _ => ({ r1.1 with up := 0 }, [])
  | .ok nodes =>
    let r2 := fetchAndDecodeMetrics c r1.1 o.metrics
    match r2.2 with
    | .error _ => ({ r2.1 with up := 0 }, [])
    | .ok metricsR =>
      let r3 := fetchAndDecodeStats c r2.1 o.stats
      match r3.2 with
      | .error _ => ({ r3.1 with up := 0 }, [])
      | .ok statsR =>
        let r4 := fetchAndDecodeManagment r3.1 o.management
        match r4.2 with
        | .error _ => ({ r4.1 with up := 0 }, [])
        | .ok managementR =>
          let st4 := r4.1
          let clusterSize := managementR.result.length
          let managementData := resolveManagement c.node managementR.result
          let values : CombinedResponse :=
            { nodes := nodes, metrics := metricsR, stats := statsR,
              clusterSize := clusterSize }
          let st5 := { st4 with up := if values.nodes.code == 0 then 1 else 0 }
          (st5, (emitSamples emqMetrics values nodes.result.nodeName
                   nodes.result.release managementData.version).1)

/-- Embedding of `Collect` (collector.go lines 748-815): increment the
total-scrapes counter, run the body, and append the deferred emission of the
`up` gauge and the two counters (deferred functions run last, and read the
state as it is at that point, on success, failure, and panic unwinding
alike). -/
def Collect (c : Config) (st : ProcState) (o : ScrapeOutcomes) :
    ProcState × List Emitted :=
  let st0 := { st with totalScrapes := st.totalScrapes + 1 }
  let r := collectBody c st0 o
  (r.1, r.2 ++ [.upGauge r.1.up, .scrapeCounter r.1.totalScrapes,
                .parseFailureCounter r.1.jsonParseFailures])

/-! ## Harness helpers for stating the claims -/

/-- Whether a network outcome lets the fetch succeed: a 200 response whose
body decodes. -/
def fetchOk {α : Type} : FetchOutcome α → Bool
  | .response status (.ok _) => status == 200
  | _ => false

/-- Whether a network outcome makes the fetch hit the decode-failure branch:
a 200 response whose body is malformed. -/
def decodeFail {α : Type} : FetchOutcome α → Bool
  | .response status .malformed => status == 200
  | _ => false

/-- Outcomes in which all four fetches succeed with the given payloads. -/
def okOutcomes (n : NodesResponse) (m : MetricsResponse) (s : StatsResponse)
    (g : ManagementResponse) : ScrapeOutcomes :=
  { nodes := .response 200 (.ok n), metrics := .response 200 (.ok m),
    stats := .response 200 (.ok s), management := .response 200 (.ok g) }

/-- Whether an emitted value is a per-metric sample (as opposed to one of
the three meta series). -/
def isMetricSample : Emitted → Bool
  | .sample _ _ _ _ => true
  | _ => false

/-- Number of per-metric samples in an emission. -/
def sampleCount (es : List Emitted) : Nat := (es.filter isMetricSample).length

/-! ## Spec-side predicates for the number-extraction claims -/

/-- The list contains no decimal digit. -/
def noDigits (l : List Char) : Bool := l.all (fun c => !c.isDigit)

/-- The list is a nonempty run of decimal digits. -/
def digitRun (l : List Char) : Bool := !l.isEmpty && l.all Char.isDigit

/-- The list starts with a decimal digit. -/
def headIsDigit : List Char → Bool
  | c :: _ => c.isDigit
  | [] => false

/-- The list starts with a dot followed by a decimal digit. -/
def startsDotDigit : List Char → Bool
  | '.' :: d :: _ => d.isDigit
  | _ => false

/-- Frame of one fetch operation on the process-wide state: the `up` gauge
and the total-scrapes counter are untouched, the shared URL keeps its scheme,
host and port but has its path overwritten with the endpoint path, and the
parse-failure counter grows by one exactly on the decode-failure outcome. -/
def FetchFrame {α : Type} (path : String) (st : ProcState) (o : FetchOutcome α)
    (st' : ProcState) : Prop :=
  st'.up = st.up ∧ st'.totalScrapes = st.totalScrapes ∧
  st'.url.scheme = st.url.scheme ∧ st'.url.host = st.url.host ∧
  st'.url.port = st.url.port ∧ st'.url.path = path ∧
  st'.jsonParseFailures = st.jsonParseFailures + (if decodeFail o then 1 else 0)

/-! ## Concrete fixtures for counterexamples and witnesses -/

/-- A well-formed node-status payload body. -/
def sampleNodesResult : NodesResponseResult :=
  { nodeName := "emq@127.0.0.1", release := "R20/OTP", status := "Running",
    memoryTotal := "128.5MB", memoryUsed := "60MB",
    processesAvailable := 256, processesUsed := 100, maxFds := 1024,
    clients := 2, load1 := "0.10", load5 := "0.20", load15 := "0.30" }

/-- A protocol-counters payload body with all counters zero. -/
def zeroMetricsResult : MetricsResponseResult :=
  ⟨0, 0, 0, 0, 0, 0, 0, 0, 0, 0, 0, 0, 0, 0, 0, 0, 0, 0, 0,
   0, 0, 0, 0, 0, 0, 0, 0, 0, 0, 0, 0, 0, 0, 0, 0, 0, 0, 0⟩

/-- A broker-stats payload body with seven subscribers and the rest zero. -/
def sampleStatsResult : StatsResponseResult :=
  ⟨0, 0, 0, 0, 0, 0, 0, 0, 7, 0, 0, 0, 0, 0⟩

/-- A one-record cluster membership payload matching the configured node. -/
def sampleManagement : ManagementResponse :=
  { result := [{ emptyManagementResult with
      name := "emq@127.0.0.1", version := "2.3.11" }], code := 0 }

/-- The default configuration of main.go. -/
def cfg0 : Config :=
  { node := "emq@127.0.0.1", username := "admin", password := "public" }

/-- A process state as after some earlier cycles, with an empty URL path. -/
def st0 : ProcState :=
  { url := { scheme := "http", host := "127.0.0.1", port := "8080", path := "" },
    up := 1, totalScrapes := 5, jsonParseFailures := 2 }

/-- A node-status payload whose memory_total field contains no digits. -/
def unknownMemoryNodes : NodesResponse :=
  { result := { sampleNodesResult with memoryTotal := "unknown" }, code := 0 }

/-- A membership record named emq@n1 carrying version 2.3.10. -/
def memberA : ManagementResponseResult :=
  { emptyManagementResult with name := "emq@n1", version := "2.3.10" }

/-- A second membership record with the same name but version 2.3.11. -/
def memberB : ManagementResponseResult :=
  { emptyManagementResult with name := "emq@n1", version := "2.3.11" }

/-- The all-zero protocol-counters response. -/
def zeroMetrics : MetricsResponse := { result := zeroMetricsResult, code := 0 }

/-- The sample broker-stats response. -/
def sampleStats : StatsResponse := { result := sampleStatsResult, code := 0 }

/-! ## Helper lemmas -/

/-- Splitting takeWhile and dropWhile over a digit run followed by a
non-digit boundary. -/
theorem takeWhile_digits_append (a l : List Char)
    (ha : a.all Char.isDigit = true) (hl : headIsDigit l = false) :
    (a ++ l).takeWhile Char.isDigit = a ∧ (a ++ l).dropWhile Char.isDigit = l := by
  induction a with
  | nil =>
    cases l with
    | nil => exact ⟨rfl, rfl⟩
    | cons c t =>
      simp only [headIsDigit] at hl
      simp [List.takeWhile, List.dropWhile, hl]
  | cons c t ih =>
    simp only [List.all_cons, Bool.and_eq_true] at ha
    obtain ⟨h1, h2⟩ := ih ha.2
    simp [List.takeWhile, List.dropWhile, ha.1, h1, h2]

/-- The regex scan ignores a digit-free leading segment. -/
theorem findFirstNumber_skip (pre l : List Char) (h : noDigits pre = true) :
    findFirstNumber (pre ++ l) = findFirstNumber l := by
  induction pre with
  | nil => rfl
  | cons c t ih =>
    simp only [noDigits, List.all_cons, Bool.and_eq_true, Bool.not_eq_true'] at h
    simp only [List.cons_append, findFirstNumber, h.1]
    exact ih (by simp [noDigits, h.2])

/-- The first match of the number regex on a subject decomposed around a
dotted digit run: digit-free segment, then a maximal digit run, one dot,
a second maximal digit run, and a remainder not starting with a digit. -/
theorem findFirstNumber_dotted (pre a b post : List Char)
    (hpre : noDigits pre = true) (ha : digitRun a = true) (hb : digitRun b = true)
    (hpost : headIsDigit post = false) :
    findFirstNumber (pre ++ (a ++ '.' :: (b ++ post))) = some (a ++ '.' :: b) := by
  rw [findFirstNumber_skip pre _ hpre]
  rcases a with _ | ⟨c, a2⟩
  · simp [digitRun] at ha
  · simp only [digitRun, List.isEmpty_cons, Bool.not_false, Bool.true_and,
      List.all_cons, Bool.and_eq_true] at ha
    rcases b with _ | ⟨d, b2⟩
    · simp [digitRun] at hb
    · simp only [digitRun, List.isEmpty_cons, Bool.not_false, Bool.true_and,
        List.all_cons, Bool.and_eq_true] at hb
      have hspan := takeWhile_digits_append (c :: a2) ('.' :: ((d :: b2) ++ post))
        (by simp [List.all_cons, ha.1, ha.2]) rfl
      have hspan2 := takeWhile_digits_append (d :: b2) post
        (by simp [List.all_cons, hb.1, hb.2]) hpost
      simp only [List.cons_append, List.append_assoc] at hspan hspan2 ⊢
      simp only [findFirstNumber, ha.1, if_true]
      rw [hspan.1, hspan.2]
      simp [hb.1, hspan2.1]

/-- The first match of the number regex on a subject decomposed around a
plain digit run with no dotted continuation. -/
theorem findFirstNumber_plain (pre a post : List Char)
    (hpre : noDigits pre = true) (ha : digitRun a = true)
    (hpost : headIsDigit post = false) (hdot : startsDotDigit post = false) :
    findFirstNumber (pre ++ (a ++ post)) = some a := by
  rw [findFirstNumber_skip pre _ hpre]
  rcases a with _ | ⟨c, a2⟩
  · simp [digitRun] at ha
  · simp only [digitRun, List.isEmpty_cons, Bool.not_false, Bool.true_and,
      List.all_cons, Bool.and_eq_true] at ha
    have hspan := takeWhile_digits_append (c :: a2) post
      (by simp [List.all_cons, ha.1, ha.2]) hpost
    simp only [List.cons_append] at hspan ⊢
    simp only [findFirstNumber, ha.1, if_true]
    rw [hspan.1, hspan.2]
    rcases post with _ | ⟨e, rest⟩
    · rfl
    · by_cases he : e = '.'
      · subst he
        rcases rest with _ | ⟨d, rest2⟩
        · rfl
        · have hd : d.isDigit = false := by
            simpa [startsDotDigit] using hdot
          simp [hd]
      · split
        · rename_i d rest2 heqm
          injection heqm with hh ht
          exact absurd hh he
        · rfl

/-- State component of a fetch: path overwritten, parse-failure counter
incremented exactly on the decode-failure outcome, all else untouched. -/
theorem fetchAndDecode_fst {α : Type} (p : String) (s : ProcState)
    (o : FetchOutcome α) :
    (fetchAndDecode p s o).1 =
      { s with url := { s.url with path := p },
               jsonParseFailures :=
                 s.jsonParseFailures + (if decodeFail o then 1 else 0) } := by
  rcases o with _ | ⟨status, (a | _)⟩
  · simp [fetchAndDecode, decodeFail]
  · by_cases h : status = 200 <;> simp [fetchAndDecode, decodeFail, h]
  · by_cases h : status = 200 <;> simp [fetchAndDecode, decodeFail, h]

/-- Every fetch outcome satisfies the fetch frame. -/
theorem fetchAndDecode_frame {α : Type} (p : String) (st : ProcState)
    (o : FetchOutcome α) : FetchFrame p st o (fetchAndDecode p st o).1 := by
  rw [FetchFrame, fetchAndDecode_fst]
  exact ⟨rfl, rfl, rfl, rfl, rfl, rfl, rfl⟩

/-- A fetch returns a payload only on a 200 response with a decodable body. -/
theorem fetchOk_of_ok {α : Type} (p : String) (s : ProcState)
    (o : FetchOutcome α) (a : α)
    (h : (fetchAndDecode p s o).2 = .ok a) : fetchOk o = true := by
  rcases o with _ | ⟨status, (b | _)⟩
  · simp [fetchAndDecode] at h
  · by_cases hs : status = 200 <;> simp_all [fetchAndDecode, fetchOk]
  · by_cases hs : status = 200 <;> simp_all [fetchAndDecode]

/-- The body of Collect never changes the total-scrapes counter. -/
theorem collectBody_totalScrapes (c : Config) (st : ProcState) (o : ScrapeOutcomes) :
    (collectBody c st o).1.totalScrapes = st.totalScrapes := by
  simp only [collectBody, fetchAndDecodeNodes, fetchAndDecodeMetrics,
    fetchAndDecodeStats, fetchAndDecodeManagment]
  split
  · simp [fetchAndDecode_fst]
  · split
    · simp [fetchAndDecode_fst]
    · split
      · simp [fetchAndDecode_fst]
      · split <;> simp [fetchAndDecode_fst]

/-- A non-200 response fails with the HTTP status error and leaves the
parse-failure counter unchanged. -/
theorem fetch_non200 {α : Type} (p : String) (st : ProcState) (status : Nat)
    (b : DecodeResult α) (h : status ≠ 200) :
    (fetchAndDecode p st (.response status b)).2 = .error (.httpStatusError status) ∧
    (fetchAndDecode p st (.response status b)).1.jsonParseFailures =
      st.jsonParseFailures := by
  rcases b with a | _ <;> simp [fetchAndDecode, h]

/-- A 200 response with a malformed body fails with the decode error and
increments the parse-failure counter by one. -/
theorem fetch_200_malformed {α : Type} (p : String) (st : ProcState) :
    (fetchAndDecode (α := α) p st (.response 200 .malformed)).2 =
      .error .decodeError ∧
    (fetchAndDecode (α := α) p st (.response 200 .malformed)).1.jsonParseFailures =
      st.jsonParseFailures + 1 := by
  simp [fetchAndDecode]

/-- The parse-failure counter moves exactly on the decode-failure outcome. -/
theorem fetch_parse_counter {α : Type} (p : String) (st : ProcState)
    (o : FetchOutcome α) :
    (fetchAndDecode p st o).1.jsonParseFailures =
      st.jsonParseFailures + (if decodeFail o then 1 else 0) := by
  rw [fetchAndDecode_fst]

/-- find? over an appended list prefers the left part. -/
theorem list_find?_append {α : Type} (p : α → Bool) (l1 l2 : List α) :
    (l1 ++ l2).find? p = ((l1.find? p).orElse (fun _ => l2.find? p)) := by
  induction l1 with
  | nil => simp [Option.orElse]
  | cons a t ih =>
    by_cases h : p a <;> simp [List.find?, h, ih, Option.orElse]

/-- When every registry closure evaluates, the emission loop emits one
sample per entry and nothing else. -/
theorem emitSamples_all_some (v : CombinedResponse) (l1 l2 l3 : String) :
    ∀ ms : List Metric, (∀ m ∈ ms, (m.value v).isSome = true) →
      (emitSamples ms v l1 l2 l3).1.length = ms.length ∧
      (emitSamples ms v l1 l2 l3).1.all isMetricSample = true := by
  intro ms
  induction ms with
  | nil => intro h; exact ⟨rfl, rfl⟩
  | cons m rest ih =>
    intro h
    obtain ⟨x, hx⟩ := Option.isSome_iff_exists.mp (h m (List.mem_cons_self m rest))
    obtain ⟨hl, ha⟩ := ih (fun q hq => h q (List.mem_cons_of_mem m hq))
    simp [emitSamples, hx, hl, ha, isMetricSample]

/-- Every registry closure evaluates on a snapshot whose two memory strings
contain a digit run. -/
theorem emqMetrics_value_isSome (v : CombinedResponse)
    (h1 : (memValue v.nodes.result.memoryTotal).isSome = true)
    (h2 : (memValue v.nodes.result.memoryUsed).isSome = true) :
    ∀ m ∈ emqMetrics, (m.value v).isSome = true := by
  intro m hm
  simp only [emqMetrics, List.mem_cons, List.not_mem_nil, or_false] at hm
  rcases hm with rfl | rfl | rfl | rfl | rfl | rfl | rfl | rfl | rfl | rfl | rfl | rfl | rfl | rfl | rfl | rfl | rfl | rfl | rfl | rfl | rfl | rfl | rfl | rfl | rfl | rfl | rfl | rfl | rfl | rfl | rfl | rfl | rfl | rfl | rfl | rfl | rfl | rfl | rfl | rfl | rfl | rfl | rfl | rfl | rfl | rfl | rfl | rfl | rfl
  all_goals first | exact h1 | exact h2 | rfl

/-- sampleCount distributes over append. -/
theorem sampleCount_append (l1 l2 : List Emitted) :
    sampleCount (l1 ++ l2) = sampleCount l1 + sampleCount l2 := by
  simp [sampleCount, List.filter_append]

/-- sampleCount of a list of samples is its length. -/
theorem sampleCount_eq_length (l : List Emitted)
    (h : l.all isMetricSample = true) : sampleCount l = l.length := by
  rw [sampleCount, List.filter_eq_self.mpr]
  intro a hal
  exact (List.all_eq_true.mp h) a hal

/-- The three meta series contribute no per-metric sample. -/
theorem sampleCount_meta (u : ℚ) (t j : Nat) :
    sampleCount [Emitted.upGauge u, Emitted.scrapeCounter t,
      Emitted.parseFailureCounter j] = 0 := rfl

/-! ## The claims -/

/-- C1: the code contradicts the claim. On a memory field with no digit run
(such as "unknown") the regex match list is empty and the Go closure indexes
it at 0, which panics with index out of range (modelled as `none`) instead of
logging a local error and returning the fallback 0; the panic aborts the
emission loop, so with memory_total = "unknown" and all four fetches
succeeding the cycle emits only 4 of the 49 per-metric samples (the panic
unwinds past the loop; the three deferred meta series are still sent). -/
theorem c1_memory_extraction_panics :
    memValue "unknown" = none ∧
    findFirstNumber "unknown".data = none ∧
    sampleCount (Collect cfg0 st0 (okOutcomes unknownMemoryNodes zeroMetrics
        sampleStats sampleManagement)).2 = 4 ∧
    (Collect cfg0 st0 (okOutcomes unknownMemoryNodes zeroMetrics
        sampleStats sampleManagement)).2.length = 7 := by
  refine ⟨by decide, by decide, by decide, by decide⟩

/-- C2 counterexample: with two membership records both named emq@n1, the
resolution loop keeps the LAST match (memberB), while the first exact match
in list order is memberA, refuting the claim that the first match is used. -/
theorem c2_counterexample :
    resolveManagement "emq@n1" [memberA, memberB] = memberB ∧
    ([memberA, memberB].find? (fun v => v.name == "emq@n1")) = some memberA ∧
    memberA ≠ memberB := by decide

/-- C2 amended: the Collection Cycle resolves the per-node version data from
the LAST record (in list order) whose name is an exact match of the node
identifier, keeping the zero-valued record when there is no match. -/
theorem c2_amended_last_match (node : String) (rs : List ManagementResponseResult) :
    resolveManagement node rs =
      ((rs.reverse.find? (fun v => v.name == node)).getD emptyManagementResult) := by
  suffices h : ∀ (rs : List ManagementResponseResult) (acc : ManagementResponseResult),
      rs.foldl (fun acc v => if v.name == node then v else acc) acc =
        ((rs.reverse.find? (fun v => v.name == node)).getD acc) from h rs _
  intro rs
  induction rs with
  | nil => intro acc; rfl
  | cons r t ih =>
    intro acc
    simp only [List.foldl_cons, List.reverse_cons, list_find?_append, ih]
    cases h : t.reverse.find? (fun v => v.name == node) with
    | some v => simp [Option.orElse]
    | none =>
      by_cases hr : r.name == node <;> simp [List.find?, hr, Option.orElse]

/-- C3 counterexample: a fetch operation DOES mutate the configured base
address shared by the others: after any call of fetchAndDecodeNodes the
shared URL value differs from what it was (its path is overwritten with the
nodes endpoint path), refuting the claim that the parse-failure counter is
the only shared mutable state the fetches touch. -/
theorem c3_counterexample :
    (fetchAndDecodeNodes cfg0 st0 FetchOutcome.transportFailure).1.url ≠ st0.url ∧
    (fetchAndDecodeNodes cfg0 st0 FetchOutcome.transportFailure).1.url.path =
      "/api/v2/monitoring/nodes/" ++ cfg0.node := by decide

/-- C3 amended: the shared mutable state of the four fetch operations is the
parse-failure counter AND the path field of the URL value reached through the
shared double pointer: each fetch overwrites that path with its own endpoint
path (in every outcome), increments the parse-failure counter exactly on a
decode failure, and touches nothing else process-wide (gauge, total-scrapes
counter, URL scheme, host and port are all preserved). -/
theorem c3_amended (c : Config) (st : ProcState) :
    (∀ o : FetchOutcome NodesResponse,
        FetchFrame ("/api/v2/monitoring/nodes/" ++ c.node) st o
          (fetchAndDecodeNodes c st o).1) ∧
    (∀ o : FetchOutcome MetricsResponse,
        FetchFrame ("/api/v2/monitoring/metrics/" ++ c.node) st o
          (fetchAndDecodeMetrics c st o).1) ∧
    (∀ o : FetchOutcome StatsResponse,
        FetchFrame ("/api/v2/monitoring/stats/" ++ c.node) st o
          (fetchAndDecodeStats c st o).1) ∧
    (∀ o : FetchOutcome ManagementResponse,
        FetchFrame "/api/v2/management/nodes" st o
          (fetchAndDecodeManagment st o).1) :=
  ⟨fun o => fetchAndDecode_frame _ st o, fun o => fetchAndDecode_frame _ st o,
   fun o => fetchAndDecode_frame _ st o, fun o => fetchAndDecode_frame _ st o⟩

/-- C4 counterexample: a cycle in which all four fetches succeed but the
memory_total field is "unknown" emits 4 per-metric samples, not one per
MetricDefinition (49): the memory closure panics mid-loop, refuting the
claim as stated. -/
theorem c4_counterexample :
    (fetchOk (okOutcomes unknownMemoryNodes zeroMetrics sampleStats
        sampleManagement).nodes &&
     fetchOk (okOutcomes unknownMemoryNodes zeroMetrics sampleStats
        sampleManagement).metrics &&
     fetchOk (okOutcomes unknownMemoryNodes zeroMetrics sampleStats
        sampleManagement).stats &&
     fetchOk (okOutcomes unknownMemoryNodes zeroMetrics sampleStats
        sampleManagement).management) = true ∧
    sampleCount (Collect cfg0 st0 (okOutcomes unknownMemoryNodes zeroMetrics
        sampleStats sampleManagement)).2 ≠ emqMetrics.length :=
  ⟨by decide, by decide⟩

/-- C4 amended: if all four fetches succeed AND both memory-field extractions
find a digit run (so no closure panics), the cycle emits exactly one sample
per MetricDefinition plus the three meta series; if any fetch fails, it emits
only the three meta series and no per-metric sample. -/
theorem c4_amended (c : Config) (st : ProcState) :
    (∀ (n : NodesResponse) (m : MetricsResponse) (s : StatsResponse)
        (g : ManagementResponse),
        (memValue n.result.memoryTotal).isSome = true →
        (memValue n.result.memoryUsed).isSome = true →
        sampleCount (Collect c st (okOutcomes n m s g)).2 = emqMetrics.length ∧
        (Collect c st (okOutcomes n m s g)).2.length = emqMetrics.length + 3) ∧
    (∀ o : ScrapeOutcomes,
        (fetchOk o.nodes && fetchOk o.metrics && fetchOk o.stats &&
          fetchOk o.management) = false →
        sampleCount (Collect c st o).2 = 0 ∧ (Collect c st o).2.length = 3) := by
  constructor
  · intro n m s g h1 h2
    have hsome := emqMetrics_value_isSome
      ⟨n, m, s, g.result.length⟩ h1 h2
    obtain ⟨hlen, hall⟩ :=
      emitSamples_all_some ⟨n, m, s, g.result.length⟩ n.result.nodeName
        n.result.release (resolveManagement c.node g.result).version emqMetrics hsome
    constructor
    · simp [Collect, collectBody, okOutcomes, fetchAndDecodeNodes,
        fetchAndDecodeMetrics, fetchAndDecodeStats, fetchAndDecodeManagment,
        fetchAndDecode, sampleCount_append, sampleCount_eq_length _ hall, hlen,
        sampleCount_meta]
    · simp [Collect, collectBody, okOutcomes, fetchAndDecodeNodes,
        fetchAndDecodeMetrics, fetchAndDecodeStats, fetchAndDecodeManagment,
        fetchAndDecode, hlen]
  · intro o hfail
    simp only [Collect, collectBody, fetchAndDecodeNodes, fetchAndDecodeMetrics,
      fetchAndDecodeStats, fetchAndDecodeManagment]
    split
    · constructor <;> simp [sampleCount, isMetricSample]
    · rename_i nodes heq1
      have h1 := fetchOk_of_ok _ _ _ _ heq1
      split
      · constructor <;> simp [sampleCount, isMetricSample]
      · rename_i metricsR heq2
        have h2 := fetchOk_of_ok _ _ _ _ heq2
        split
        · constructor <;> simp [sampleCount, isMetricSample]
        · rename_i statsR heq3
          have h3 := fetchOk_of_ok _ _ _ _ heq3
          split
          · constructor <;> simp [sampleCount, isMetricSample]
          · rename_i mgmtR heq4
            have h4 := fetchOk_of_ok _ _ _ _ heq4
            simp [h1, h2, h3, h4] at hfail

/-- C4 witness: a concrete all-success cycle with digit runs in both memory
fields emits exactly one sample per registry entry. -/
theorem c4_witness :
    (memValue sampleNodesResult.memoryTotal).isSome = true ∧
    (memValue sampleNodesResult.memoryUsed).isSome = true ∧
    sampleCount (Collect cfg0 st0 (okOutcomes ⟨sampleNodesResult, 0⟩ zeroMetrics
        sampleStats sampleManagement)).2 = emqMetrics.length := by
  refine ⟨by decide, by decide, ?_⟩
  exact ((c4_amended cfg0 st0).1 ⟨sampleNodesResult, 0⟩ zeroMetrics sampleStats
    sampleManagement (by decide) (by decide)).1

/-- C5: for each of the four fetch operations, a non-200 response fails with
the HTTP status error and leaves the parse-failure counter unchanged; a 200
response with a malformed body fails with the decode error and increments the
counter by exactly one; and in every outcome the counter changes exactly by
the decode-failure indicator, so these are the only ways it moves. -/
theorem c5_fetch_error_taxonomy (c : Config) (st : ProcState) :
    ((∀ (status : Nat) (b : DecodeResult NodesResponse), status ≠ 200 →
        (fetchAndDecodeNodes c st (.response status b)).2 =
          .error (.httpStatusError status) ∧
        (fetchAndDecodeNodes c st (.response status b)).1.jsonParseFailures =
          st.jsonParseFailures) ∧
     (fetchAndDecodeNodes c st (.response 200 .malformed)).2 = .error .decodeError ∧
     (fetchAndDecodeNodes c st (.response 200 .malformed)).1.jsonParseFailures =
       st.jsonParseFailures + 1 ∧
     (∀ o : FetchOutcome NodesResponse,
        (fetchAndDecodeNodes c st o).1.jsonParseFailures =
          st.jsonParseFailures + (if decodeFail o then 1 else 0))) ∧
    ((∀ (status : Nat) (b : DecodeResult MetricsResponse), status ≠ 200 →
        (fetchAndDecodeMetrics c st (.response status b)).2 =
          .error (.httpStatusError status) ∧
        (fetchAndDecodeMetrics c st (.response status b)).1.jsonParseFailures =
          st.jsonParseFailures) ∧
     (fetchAndDecodeMetrics c st (.response 200 .malformed)).2 = .error .decodeError ∧
     (fetchAndDecodeMetrics c st (.response 200 .malformed)).1.jsonParseFailures =
       st.jsonParseFailures + 1 ∧
     (∀ o : FetchOutcome MetricsResponse,
        (fetchAndDecodeMetrics c st o).1.jsonParseFailures =
          st.jsonParseFailures + (if decodeFail o then 1 else 0))) ∧
    ((∀ (status : Nat) (b : DecodeResult StatsResponse), status ≠ 200 →
        (fetchAndDecodeStats c st (.response status b)).2 =
          .error (.httpStatusError status) ∧
        (fetchAndDecodeStats c st (.response status b)).1.jsonParseFailures =
          st.jsonParseFailures) ∧
     (fetchAndDecodeStats c st (.response 200 .malformed)).2 = .error .decodeError ∧
     (fetchAndDecodeStats c st (.response 200 .malformed)).1.jsonParseFailures =
       st.jsonParseFailures + 1 ∧
     (∀ o : FetchOutcome StatsResponse,
        (fetchAndDecodeStats c st o).1.jsonParseFailures =
          st.jsonParseFailures + (if decodeFail o then 1 else 0))) ∧
    ((∀ (status : Nat) (b : DecodeResult ManagementResponse), status ≠ 200 →
        (fetchAndDecodeManagment st (.response status b)).2 =
          .error (.httpStatusError status) ∧
        (fetchAndDecodeManagment st (.response status b)).1.jsonParseFailures =
          st.jsonParseFailures) ∧
     (fetchAndDecodeManagment st (.response 200 .malformed)).2 = .error .decodeError ∧
     (fetchAndDecodeManagment st (.response 200 .malformed)).1.jsonParseFailures =
       st.jsonParseFailures + 1 ∧
     (∀ o : FetchOutcome ManagementResponse,
        (fetchAndDecodeManagment st o).1.jsonParseFailures =
          st.jsonParseFailures + (if decodeFail o then 1 else 0))) :=
  ⟨⟨fun s b h => fetch_non200 _ st s b h, (fetch_200_malformed _ st).1,
    (fetch_200_malformed _ st).2, fun o => fetch_parse_counter _ st o⟩,
   ⟨fun s b h => fetch_non200 _ st s b h, (fetch_200_malformed _ st).1,
    (fetch_200_malformed _ st).2, fun o => fetch_parse_counter _ st o⟩,
   ⟨fun s b h => fetch_non200 _ st s b h, (fetch_200_malformed _ st).1,
    (fetch_200_malformed _ st).2, fun o => fetch_parse_counter _ st o⟩,
   ⟨fun s b h => fetch_non200 _ st s b h, (fetch_200_malformed _ st).1,
    (fetch_200_malformed _ st).2, fun o => fetch_parse_counter _ st o⟩⟩

/-- C5 witness: a concrete 500 response yields the HTTP status error without
touching the counter; a concrete malformed 200 body increments it by one. -/
theorem c5_witness :
    ((500 : Nat) ≠ 200 ∧
     (fetchAndDecodeNodes cfg0 st0 (.response 500 .malformed)).2 =
       .error (.httpStatusError 500) ∧
     (fetchAndDecodeNodes cfg0 st0 (.response 500 .malformed)).1.jsonParseFailures =
       st0.jsonParseFailures) ∧
    (fetchAndDecodeMetrics cfg0 st0 (.response 200 .malformed)).1.jsonParseFailures =
      st0.jsonParseFailures + 1 := by
  have h := c5_fetch_error_taxonomy cfg0 st0
  exact ⟨⟨by decide, (h.1.1 500 .malformed (by decide)).1,
          (h.1.1 500 .malformed (by decide)).2⟩, h.2.1.2.2.1⟩

/-- C6: in every cycle whose four fetches succeed, the health gauge ends at 1
exactly when the JSON-embedded status code of the node-status payload is 0,
and at 0 otherwise, whatever the payloads are. -/
theorem c6_health_gauge (c : Config) (st : ProcState) (n : NodesResponse)
    (m : MetricsResponse) (s : StatsResponse) (g : ManagementResponse) :
    (Collect c st (okOutcomes n m s g)).1.up = if n.code = 0 then 1 else 0 := by
  simp [Collect, collectBody, okOutcomes, fetchAndDecodeNodes, fetchAndDecodeMetrics,
    fetchAndDecodeStats, fetchAndDecodeManagment, fetchAndDecode, beq_iff_eq]

/-- C7: the memory-field extraction takes the first maximal digit run with an
optional single embedded decimal point, parses it, and scales by exactly one
million, for every subject string decomposed around such a run. -/
theorem c7_first_maximal_run :
    (∀ (s : String) (pre a b post : List Char),
        s.data = pre ++ (a ++ '.' :: (b ++ post)) →
        noDigits pre = true → digitRun a = true → digitRun b = true →
        headIsDigit post = false →
        memValue s = some (parseFloatQ (a ++ '.' :: b) * 1000000)) ∧
    (∀ (s : String) (pre a post : List Char),
        s.data = pre ++ (a ++ post) →
        noDigits pre = true → digitRun a = true →
        headIsDigit post = false → startsDotDigit post = false →
        memValue s = some (parseFloatQ a * 1000000)) := by
  constructor
  · intro s pre a b post hs hpre ha hb hpost
    rw [memValue, hs, findFirstNumber_dotted pre a b post hpre ha hb hpost]
  · intro s pre a post hs hpre ha hpost hdot
    rw [memValue, hs, findFirstNumber_plain pre a post hpre ha hpost hdot]

/-- C7 witness: the spec test vector, input "128.5MB" extracts run 128.5 and
yields 128500000. -/
theorem c7_witness :
    ("128.5MB".data =
      [] ++ (['1', '2', '8'] ++ '.' :: (['5'] ++ ['M', 'B']))) ∧
    noDigits [] = true ∧ digitRun ['1', '2', '8'] = true ∧
    digitRun ['5'] = true ∧ headIsDigit ['M', 'B'] = false ∧
    memValue "128.5MB" = some 128500000 := by
  refine ⟨by decide, by decide, by decide, by decide, by decide, ?_⟩
  have h := c7_first_maximal_run.1 "128.5MB" [] ['1', '2', '8'] ['5'] ['M', 'B']
    (by decide) (by decide) (by decide) (by decide) (by decide)
  rw [h, show (['1', '2', '8'] ++ ['.', '5'] : List Char) =
    ['1', '2', '8', '.', '5'] from rfl]
  simp only [parseFloatQ,
    show List.takeWhile (fun c => c != '.') ['1', '2', '8', '.', '5'] =
      ['1', '2', '8'] from rfl,
    show List.dropWhile (fun c => c != '.') ['1', '2', '8', '.', '5'] =
      ['.', '5'] from rfl,
    show digitsVal ['1', '2', '8'] = 128 from rfl,
    show digitsVal ['5'] = 5 from rfl, List.length_cons, List.length_nil]
  norm_num

/-- C8: the registry resolves both the subscribers and the subscriptions
metric names, their extraction closures return the same subscribers count on
every snapshot, and the two names are distinct entries of the registry. -/
theorem c8_subscribers_subscriptions :
    (∀ v : CombinedResponse,
      (emqMetrics.find? (fun m => m.name == "emq_stats_subscribers")).map
          (fun m => m.value v) = some (some ((v.stats.result.subscribersCount : ℚ))) ∧
      (emqMetrics.find? (fun m => m.name == "emq_stats_subscriptions")).map
          (fun m => m.value v) = some (some ((v.stats.result.subscribersCount : ℚ)))) ∧
    (emqMetrics.map Metric.name).count "emq_stats_subscribers" = 1 ∧
    (emqMetrics.map Metric.name).count "emq_stats_subscriptions" = 1 ∧
    ("emq_stats_subscribers" : String) ≠ "emq_stats_subscriptions" :=
  ⟨fun v => ⟨rfl, rfl⟩, by decide, by decide, by decide⟩

/-- C9: every collection cycle increments the total-scrapes counter by
exactly one, whatever the fetch outcomes, and no fetch operation ever changes
it (so nothing decrements it). -/
theorem c9_total_scrapes (c : Config) (st : ProcState) (o : ScrapeOutcomes) :
    (Collect c st o).1.totalScrapes = st.totalScrapes + 1 ∧
    (∀ o1 : FetchOutcome NodesResponse,
        (fetchAndDecodeNodes c st o1).1.totalScrapes = st.totalScrapes) ∧
    (∀ o2 : FetchOutcome MetricsResponse,
        (fetchAndDecodeMetrics c st o2).1.totalScrapes = st.totalScrapes) ∧
    (∀ o3 : FetchOutcome StatsResponse,
        (fetchAndDecodeStats c st o3).1.totalScrapes = st.totalScrapes) ∧
    (∀ o4 : FetchOutcome ManagementResponse,
        (fetchAndDecodeManagment st o4).1.totalScrapes = st.totalScrapes) := by
  refine ⟨?_, ?_, ?_, ?_, ?_⟩
  · show (collectBody c _ o).1.totalScrapes = st.totalScrapes + 1
    rw [collectBody_totalScrapes]
  · intro o1; exact (fetchAndDecode_frame _ st o1).2.1
  · intro o2; exact (fetchAndDecode_frame _ st o2).2.1
  · intro o3; exact (fetchAndDecode_frame _ st o3).2.1
  · intro o4; exact (fetchAndDecode_frame _ st o4).2.1

/-- C10: the metric registry holds exactly 49 definitions, every one of
gauge kind, every one carrying the label name list node, otp_release,
version; the registry is a closed constant of the embedding, never mutated. -/
theorem c10_registry_shape :
    emqMetrics.length = 49 ∧
    (emqMetrics.all (fun m => m.type == ValueType.gaugeValue)) = true ∧
    (emqMetrics.all (fun m => m.labelNames == defaultLabels)) = true :=
  ⟨rfl, rfl, rfl⟩

end EmqExporter
